import Mathlib

/-!
Shallow embedding of the tofea topology-optimization scripts
(src/sturges.py and src/topopt_3d.py).  Fields are flat rational
vectors (numpy arrays are handled in raveled form, so reshape is the
identity on them); the external Gaussian smoothing filter is modelled
from the spec as multiplication by a kernel matrix; the physics oracle
(fem) and the MMA optimizer (nlopt) are opaque function parameters.
-/

namespace Tofea

/-- A flat design/property field over `n` grid cells. -/
abbrev DesignField (n : ℕ) := Fin n → ℚ

/-- The nlopt gradient output buffer `gd`; `gd.size` is its length. -/
abbrev Buffer := List ℚ

/-- np.mean: arithmetic mean of a field. -/
def mean {n : ℕ} (x : DesignField n) : ℚ := (∑ i, x i) / (n : ℚ)

/-- Euclidean pairing of two fields. -/
def dot {n : ℕ} (x y : DesignField n) : ℚ := ∑ i, x i * y i

/-- Modelled from the spec: `gaussian_filter` (common.topopt.filters)
and the filter inside `simp_parametrization` (tofea.topopt_helpers) are
not under src/; spec section 4.1 fixes the smoothing filter to a linear
separable convolution, modelled here as multiplication by a kernel
matrix `K`. -/
def filt {n : ℕ} (K : Fin n → Fin n → ℚ) (x : DesignField n) : DesignField n :=
  fun i => ∑ j, K i j * x j

/-- Spec sections 3 and 4.1: the filter is a convex-weighted average of
its input, i.e. nonnegative weights whose rows sum to one. -/
def Stochastic {n : ℕ} (K : Fin n → Fin n → ℚ) : Prop :=
  (∀ i j, 0 ≤ K i j) ∧ ∀ i, (∑ j, K i j) = 1

/-- The pass-through kernel: spec section 8 fixes filter(x, 0) = x in
the scale-to-zero limit. -/
def idKernel (n : ℕ) : Fin n → Fin n → ℚ :=
  fun i j => if i = j then 1 else 0

/-- From create_parametrization (src/topopt_3d.py lines 18-25):
reshape (identity on flat fields), the gaussian filter, then power-law
(SIMP) interpolation e_min + x^p * (e_max - e_min). -/
def create_parametrization {n : ℕ} (K : Fin n → Fin n → ℚ) (e_min e_max : ℚ)
    (p : ℕ) : DesignField n → DesignField n :=
  fun x i => e_min + (filt K x i) ^ p * (e_max - e_min)

/-- create_parametrization at its default arguments e_min = 1e-4,
e_max = 1.0, p = 3, as called by run_mech and run_temp. -/
def create_parametrization_default {n : ℕ} (K : Fin n → Fin n → ℚ) :
    DesignField n → DesignField n :=
  create_parametrization K (1 / 10000) 1 3

/-- Modelled from the spec: simp_parametrization (tofea.topopt_helpers)
is not under src/; spec section 4.2 fixes it to
interpolate(filter(x, scale)) with
interpolate(r) = prop_min + r^penalty * (prop_max - prop_min) and
penalty 3.  Used by src/sturges.py line 25 with cmin, cmax. -/
def simp_parametrization {n : ℕ} (K : Fin n → Fin n → ℚ) (cmin cmax : ℚ) :
    DesignField n → DesignField n :=
  fun x i => cmin + (filt K x i) ^ 3 * (cmax - cmin)

/-- volume (src/sturges.py lines 37-40): mean of the property field
normalized by (x - cmin) / (cmax - cmin). -/
def volume {n : ℕ} (K : Fin n → Fin n → ℚ) (cmin cmax : ℚ)
    (x : DesignField n) : ℚ :=
  mean (fun i => (simp_parametrization K cmin cmax x i - cmin) / (cmax - cmin))

/-- Modelled from autograd semantics: the reverse-mode gradient of
`volume`, i.e. the chain rule through the mean, the normalization, the
interpolation and the filter adjoint. -/
def volume_grad {n : ℕ} (K : Fin n → Fin n → ℚ) (cmin cmax : ℚ)
    (x : DesignField n) : DesignField n :=
  fun j => (∑ i, 3 * (filt K x i) ^ 2 * (cmax - cmin) / (cmax - cmin) * K i j) / (n : ℚ)

/-- value_and_grad(volume)(x) as called in src/sturges.py line 51. -/
def value_and_grad_volume {n : ℕ} (K : Fin n → Fin n → ℚ) (cmin cmax : ℚ)
    (x : DesignField n) : ℚ × DesignField n :=
  (volume K cmin cmax x, volume_grad K cmin cmax x)

/-- volume_constraint (src/sturges.py lines 50-54): one combined
value-and-gradient evaluation of `volume`, a guarded write of the
gradient into `gd`, and the residual v - volfrac. -/
def volume_constraint {n : ℕ} (K : Fin n → Fin n → ℚ) (cmin cmax volfrac : ℚ)
    (x : DesignField n) (gd : Buffer) : ℚ × Buffer :=
  let vg := value_and_grad_volume K cmin cmax x
  (vg.1 - volfrac, if 0 < gd.length then List.ofFn vg.2 else gd)

/-- value_and_grad(np.mean)(x): autograd value and gradient of the
plain mean; the gradient is the constant field 1/n (shown to be the
exact coordinate difference quotient of the mean in the C10 theorem). -/
def value_and_grad_mean {n : ℕ} (x : DesignField n) : ℚ × DesignField n :=
  (mean x, fun _ => 1 / (n : ℚ))

/-- volume_constraint inside run_mech (src/topopt_3d.py lines 69-73):
the residual is mean(x) - volfrac on the raw design field. -/
def volume_constraint_mech {n : ℕ} (volfrac : ℚ) (x : DesignField n)
    (gd : Buffer) : ℚ × Buffer :=
  let vg := value_and_grad_mean x
  (vg.1 - volfrac, if 0 < gd.length then List.ofFn vg.2 else gd)

/-- volume_constraint inside run_temp (src/topopt_3d.py lines 135-139),
textually identical to the run_mech one. -/
def volume_constraint_temp {n : ℕ} (volfrac : ℚ) (x : DesignField n)
    (gd : Buffer) : ℚ × Buffer :=
  let vg := value_and_grad_mean x
  (vg.1 - volfrac, if 0 < gd.length then List.ofFn vg.2 else gd)

/-- tensor_jacobian_product(parametrization)(x, dy)
(src/topopt_3d.py line 80): the reverse-mode vector-Jacobian product of
the SIMP parametrization, i.e. the elementwise interpolation derivative
3 r^2 (e_max - e_min) followed by the filter adjoint (the transposed
kernel). -/
def param_vjp {n : ℕ} (K : Fin n → Fin n → ℚ) (e_min e_max : ℚ)
    (x dy : DesignField n) : DesignField n :=
  fun j => ∑ i, 3 * (filt K x i) ^ 2 * (e_max - e_min) * K i j * dy i

/-- Modelled from autograd semantics: value_and_grad(objective) in
src/sturges.py line 58, where objective = fem composed with the
parametrization; reverse-mode differentiation evaluates the opaque
oracle value-and-gradient interface `vag` once at the property field
and pulls the oracle gradient back through the parametrization
vector-Jacobian product (chain rule). -/
def value_and_grad_objective {n : ℕ} (K : Fin n → Fin n → ℚ) (cmin cmax : ℚ)
    (vag : DesignField n → ℚ × DesignField n) (x : DesignField n) :
    ℚ × DesignField n :=
  let d := simp_parametrization K cmin cmax x
  let cdc := vag d
  (cdc.1, param_vjp K cmin cmax x cdc.2)

/-- nlopt_obj (src/sturges.py lines 57-70).  `vag` is the oracle
value-and-gradient interface, `heat` the extra fem.heat_distribution
solve feeding the plot, `obs` the plotting block (set_data, pause); the
source wraps no try/except around the plotting, so an observer
exception propagates out of the callback (the Except error case). -/
def nlopt_obj {n : ℕ} (K : Fin n → Fin n → ℚ) (cmin cmax : ℚ)
    (vag : DesignField n → ℚ × DesignField n)
    (heat : DesignField n → DesignField n)
    (obs : DesignField n → DesignField n → Except Unit Unit)
    (x : DesignField n) (gd : Buffer) : Except Unit (ℚ × Buffer) :=
  let cdc := value_and_grad_objective K cmin cmax vag x
  let u := heat x
  let gd2 := if 0 < gd.length then List.ofFn cdc.2 else gd
  match obs (simp_parametrization K cmin cmax x) u with
  | Except.error e => Except.error e
  | Except.ok _ => Except.ok (cdc.1, gd2)

/-- nlopt_obj inside run_mech (src/topopt_3d.py lines 75-86): one
value_and_grad(fem) call at the parametrized design gives value and
oracle gradient, the explicit tensor_jacobian_product pulls the
gradient back, the buffer write is guarded on gd.size, and the
plotting block `obs` runs unguarded. -/
def nlopt_obj_mech {n : ℕ} (K : Fin n → Fin n → ℚ)
    (vag : DesignField n → ℚ × DesignField n)
    (obs : DesignField n → DesignField n → Except Unit Unit)
    (x : DesignField n) (gd : Buffer) : Except Unit (ℚ × Buffer) :=
  let design := create_parametrization_default K x
  let cdc := vag design
  let gd2 := if 0 < gd.length then List.ofFn (param_vjp K (1 / 10000) 1 x cdc.2) else gd
  match obs x design with
  | Except.error e => Except.error e
  | Except.ok _ => Except.ok (cdc.1, gd2)

/-- State built by the module-level setup of src/sturges.py (lines
11-28): the initial uniform design, the heat solve performed during
setup, and the list of inputs passed to the physics oracle by setup. -/
structure SetupState (n : ℕ) where
  x0 : DesignField n
  u : DesignField n
  oracleInputs : List (DesignField n)

/-- Module-level setup of src/sturges.py: the source contains no
validation of cmin, cmax or volfrac (no checks and no
ConfigurationError anywhere), and it unconditionally calls the physics
oracle (fem.heat_distribution, line 27) once during setup.  A raised
exception would surface as an Except.error; the source can raise
none. -/
def sturges_setup {n : ℕ} (heat : DesignField n → DesignField n)
    (cmin cmax volfrac : ℚ) : Except String (SetupState n) :=
  let x0 : DesignField n := fun _ => volfrac
  let u := heat x0
  Except.ok ⟨x0, u, [x0]⟩

/-- pyvista grid built by create_grid (src/topopt_3d.py lines 28-36);
only the rendered cell values matter for the claims. -/
structure Grid (n : ℕ) where
  values : DesignField n

/-- create_grid: grid.cell_arrays values are x flattened. -/
def create_grid {n : ℕ} (x : DesignField n) : Grid n := ⟨x⟩

/-- np.full(shape, volfrac): the uniform initial design. -/
def x0_field (n : ℕ) (volfrac : ℚ) : DesignField n := fun _ => volfrac

/-- Tail of run_mech (src/topopt_3d.py lines 88-104): the optimizer
result is captured (design = opt.optimize(x0.ravel())) and rendered
through create_grid.  The MMA optimizer is the opaque `optimize`. -/
def run_mech_result {n : ℕ} (optimize : DesignField n → DesignField n)
    (volfrac : ℚ) : Grid n :=
  create_grid (optimize (x0_field n volfrac))

/-- Tail of run_temp (src/topopt_3d.py lines 154-174): identical
capture and rendering of the optimizer result. -/
def run_temp_result {n : ℕ} (optimize : DesignField n → DesignField n)
    (volfrac : ℚ) : Grid n :=
  create_grid (optimize (x0_field n volfrac))

/-- Tail of src/sturges.py (lines 73-81): the statement
opt.optimize(x0.ravel()) discards its return value; the program then
only shows the figure whose panels were last set inside nlopt_obj, so
the observable outcome is that last plotted field, not the optimizer
output. -/
def sturges_result {n : ℕ} (optimize : DesignField n → DesignField n)
    (volfrac : ℚ) (lastPlot : DesignField n) : DesignField n :=
  lastPlot

/-- Spec section 4.2 interpolation, stated from the spec text:
interpolate(r) = prop_min + r^penalty * (prop_max - prop_min). -/
def interpolate_spec (prop_min prop_max : ℚ) (penalty : ℕ) (r : ℚ) : ℚ :=
  prop_min + r ^ penalty * (prop_max - prop_min)

/-- The filter is linear in its input. -/
lemma filt_linear_comb {n : ℕ} (K : Fin n → Fin n → ℚ) (x dx : DesignField n)
    (t : ℚ) (i : Fin n) :
    filt K (fun j => x j + t * dx j) i = filt K x i + t * filt K dx i := by
  simp only [filt, Finset.mul_sum]
  rw [← Finset.sum_add_distrib]
  exact Finset.sum_congr rfl fun j _ => by ring

/-- The reverse-mode VJP is adjoint to the elementwise chain factor
composed with the filter. -/
lemma dot_param_vjp {n : ℕ} (K : Fin n → Fin n → ℚ) (a b : ℚ)
    (x dy dx : DesignField n) :
    dot (param_vjp K a b x dy) dx
      = dot dy (fun i => 3 * (filt K x i) ^ 2 * (b - a) * filt K dx i) := by
  simp only [dot, param_vjp, filt, Finset.sum_mul, Finset.mul_sum]
  rw [Finset.sum_comm]
  exact Finset.sum_congr rfl fun i _ => Finset.sum_congr rfl fun j _ => by ring

/-- First-order expansion of the SIMP parametrization along a
direction: the linear coefficient is the elementwise chain factor
applied to the filtered direction, with an explicit higher-order
remainder. -/
lemma param_expand {n : ℕ} (K : Fin n → Fin n → ℚ) (a b : ℚ)
    (x dx : DesignField n) (t : ℚ) (i : Fin n) :
    simp_parametrization K a b (fun j => x j + t * dx j) i
      = simp_parametrization K a b x i
          + t * (3 * (filt K x i) ^ 2 * (b - a) * filt K dx i)
          + t ^ 2 * ((3 * filt K x i * (filt K dx i) ^ 2
              + t * (filt K dx i) ^ 3) * (b - a)) := by
  simp only [simp_parametrization, filt_linear_comb]
  ring

/-- The pass-through kernel filters every field to itself. -/
lemma filt_idKernel {n : ℕ} (x : DesignField n) (i : Fin n) :
    filt (idKernel n) x i = x i := by
  simp [filt, idKernel, ite_mul, Finset.sum_ite_eq]

/-- A convex-average filter maps the unit cube into the unit cube. -/
lemma filt_unit_interval {n : ℕ} (K : Fin n → Fin n → ℚ) (hK : Stochastic K)
    (x : DesignField n) (hx : ∀ i, 0 ≤ x i ∧ x i ≤ 1) (i : Fin n) :
    0 ≤ filt K x i ∧ filt K x i ≤ 1 := by
  constructor
  · exact Finset.sum_nonneg fun j _ => mul_nonneg (hK.1 i j) (hx j).1
  · calc filt K x i ≤ ∑ j, K i j := by
          simp only [filt]
          refine Finset.sum_le_sum fun j _ => ?_
          have h := mul_le_mul_of_nonneg_left (hx j).2 (hK.1 i j)
          simpa using h
    _ = 1 := hK.2 i

/-- C1 (corrected): the volume-constraint residual equals
mean((parametrize(x) - prop_min) / (prop_max - prop_min)) - volfrac
only in the 2D variant, where (for prop_max distinct from prop_min) it
simplifies to mean(filter(x)^3) - volfrac; both 3D variants instead
return mean(x) - volfrac computed on the raw design field. -/
theorem C1_residual_by_variant {n : ℕ} (K : Fin n → Fin n → ℚ)
    (cmin cmax volfrac : ℚ) (x : DesignField n) (gd : Buffer)
    (h : cmax ≠ cmin) :
    (volume_constraint K cmin cmax volfrac x gd).1
        = mean (fun i =>
            (simp_parametrization K cmin cmax x i - cmin) / (cmax - cmin)) - volfrac
      ∧ (volume_constraint K cmin cmax volfrac x gd).1
          = mean (fun i => (filt K x i) ^ 3) - volfrac
      ∧ (volume_constraint_mech volfrac x gd).1 = mean x - volfrac
      ∧ (volume_constraint_temp volfrac x gd).1 = mean x - volfrac := by
  have hne : cmax - cmin ≠ 0 := sub_ne_zero.mpr h
  have hv : volume K cmin cmax x = mean (fun i => (filt K x i) ^ 3) := by
    unfold volume mean
    congr 1
    refine Finset.sum_congr rfl fun i _ => ?_
    simp only [simp_parametrization]
    rw [add_sub_cancel_left, mul_div_assoc, div_self hne, mul_one]
  refine ⟨rfl, ?_, rfl, rfl⟩
  show volume K cmin cmax x - volfrac = _
  rw [hv]

/-- The pass-through kernel is a convex-average filter. -/
lemma stochastic_idKernel (n : ℕ) : Stochastic (idKernel n) := by
  constructor
  · intro i j
    unfold idKernel
    split <;> norm_num
  · intro i
    simp [idKernel, Finset.sum_ite_eq]

/-- C1 counterexample: in run_mech, at the uniform two-cell field
x = 2/5 with the pass-through kernel and the default property range,
the callback returns mean(x) - volfrac = 0, while the claimed
normalized-property formula gives (2/5)^3 - 2/5. -/
theorem C1_counterexample :
    (volume_constraint_mech (2 / 5) (fun _ : Fin 2 => 2 / 5) []).1
      ≠ mean (fun i =>
          (create_parametrization_default (idKernel 2) (fun _ : Fin 2 => 2 / 5) i
              - 1 / 10000) / (1 - 1 / 10000)) - 2 / 5 := by
  simp only [volume_constraint_mech, value_and_grad_mean, mean,
    create_parametrization_default, create_parametrization, filt, idKernel]
  norm_num [Fin.sum_univ_two]

/-- C1 witness: the 2D residual at a concrete configuration equals the
mean cubed filtered field minus the target fraction. -/
theorem C1_residual_by_variant_witness :
    (volume_constraint (idKernel 1) 1 2 (2 / 5) (fun _ : Fin 1 => 1 / 2) []).1
      = mean (fun i => (filt (idKernel 1) (fun _ : Fin 1 => (1 : ℚ) / 2) i) ^ 3)
          - 2 / 5 :=
  (C1_residual_by_variant (idKernel 1) 1 2 (2 / 5) (fun _ => 1 / 2) []
    (by norm_num)).2.1

/-- C2 (confirmed): the run_mech objective callback returns
value = oracle(parametrize(x)) and writes the oracle gradient pulled
back through the parametrization vector-Jacobian product; the callback
consults the oracle interface only through its single evaluation at
parametrize(x), i.e. value and gradient come from one combined
value-and-gradient call; the written pullback is the true reverse-mode
VJP, being adjoint to the direction derivative of the parametrization
exhibited by the expansion identity; and the 2D variant obtains the
same value and pulled-back gradient from its single combined
value_and_grad(objective) call. -/
theorem C2_objective_value_and_pullback {n : ℕ} (K : Fin n → Fin n → ℚ)
    (vag : DesignField n → ℚ × DesignField n)
    (obs : DesignField n → DesignField n → Except Unit Unit)
    (x : DesignField n) (gd : Buffer)
    (hobs : obs x (create_parametrization_default K x) = Except.ok ())
    (hgd : 0 < gd.length) :
    nlopt_obj_mech K vag obs x gd
        = Except.ok ((vag (create_parametrization_default K x)).1,
            List.ofFn (param_vjp K (1 / 10000) 1 x
              (vag (create_parametrization_default K x)).2))
      ∧ (∀ vag₂ : DesignField n → ℚ × DesignField n,
          vag₂ (create_parametrization_default K x)
              = vag (create_parametrization_default K x)
            → nlopt_obj_mech K vag₂ obs x gd = nlopt_obj_mech K vag obs x gd)
      ∧ (∀ a b : ℚ, ∀ dy dx : DesignField n,
          dot (param_vjp K a b x dy) dx
            = dot dy (fun i => 3 * (filt K x i) ^ 2 * (b - a) * filt K dx i))
      ∧ (∀ a b t : ℚ, ∀ dx : DesignField n, ∀ i : Fin n,
          simp_parametrization K a b (fun j => x j + t * dx j) i
            = simp_parametrization K a b x i
                + t * (3 * (filt K x i) ^ 2 * (b - a) * filt K dx i)
                + t ^ 2 * ((3 * filt K x i * (filt K dx i) ^ 2
                    + t * (filt K dx i) ^ 3) * (b - a)))
      ∧ (∀ cmin cmax : ℚ,
          value_and_grad_objective K cmin cmax vag x
            = ((vag (simp_parametrization K cmin cmax x)).1,
                param_vjp K cmin cmax x
                  (vag (simp_parametrization K cmin cmax x)).2)) := by
  refine ⟨?_, ?_, ?_, ?_, ?_⟩
  · simp [nlopt_obj_mech, hobs, hgd]
  · intro vag₂ hv
    simp [nlopt_obj_mech, hv]
  · intro a b dy dx
    exact dot_param_vjp K a b x dy dx
  · intro a b t dx i
    exact param_expand K a b x dx t i
  · intro cmin cmax
    rfl

/-- C2 witness: the adjoint identity for the written pullback at a
concrete kernel, design field and gradient, with the theorem's
hypotheses discharged at a concrete oracle, observer and buffer. -/
theorem C2_objective_value_and_pullback_witness :
    dot (param_vjp (idKernel 1) (1 / 10000) 1 (fun _ : Fin 1 => 1 / 2)
          (fun _ : Fin 1 => 1)) (fun _ : Fin 1 => 1)
      = dot (fun _ : Fin 1 => (1 : ℚ))
          (fun i => 3 * (filt (idKernel 1) (fun _ : Fin 1 => 1 / 2) i) ^ 2
            * (1 - 1 / 10000) * filt (idKernel 1) (fun _ : Fin 1 => 1) i) :=
  (C2_objective_value_and_pullback (idKernel 1) (fun d => (d 0, fun _ => 2))
    (fun _ _ => Except.ok ()) (fun _ => 1 / 2) [0] rfl (by decide)).2.2.1
    (1 / 10000) 1 (fun _ => 1) (fun _ => 1)

/-- C3 (confirmed): the parametrization is interpolation after
filtering, elementwise prop_min + filter(x)^p * (prop_max - prop_min),
and the variant used by the 3D runs instantiates the defaults
e_min = 1/10000, e_max = 1 and penalty p = 3. -/
theorem C3_parametrization_formula {n : ℕ} (K : Fin n → Fin n → ℚ)
    (a b : ℚ) (p : ℕ) (x : DesignField n) (i : Fin n) :
    create_parametrization K a b p x i = interpolate_spec a b p (filt K x i)
      ∧ create_parametrization_default K x i
          = interpolate_spec (1 / 10000) 1 3 (filt K x i)
      ∧ create_parametrization_default K x i
          = 1 / 10000 + (filt K x i) ^ 3 * (1 - 1 / 10000) :=
  ⟨rfl, rfl, rfl⟩

/-- C4 (amended) theorem: the setup performs no configuration
validation and always succeeds, for every cmin, cmax and volfrac
(including cmin = cmax), and it unconditionally issues one physics
oracle call during setup. -/
theorem C4_setup_never_raises {n : ℕ} (heat : DesignField n → DesignField n)
    (cmin cmax volfrac : ℚ) :
    (sturges_setup heat cmin cmax volfrac).isOk = true
      ∧ sturges_setup heat cmin cmax volfrac
          = Except.ok ⟨fun _ => volfrac, heat (fun _ => volfrac), [fun _ => volfrac]⟩ :=
  ⟨rfl, rfl⟩

/-- C4 counterexample: with prop_min = prop_max = 1 the setup still
returns successfully, raising no ConfigurationError, and has already
called the physics oracle once. -/
theorem C4_counterexample :
    (sturges_setup (fun u : DesignField 1 => u) 1 1 (2 / 5)).isOk = true
      ∧ Except.map (fun s : SetupState 1 => s.oracleInputs.length)
          (sturges_setup (fun u : DesignField 1 => u) 1 1 (2 / 5)) = Except.ok 1 :=
  ⟨rfl, rfl⟩

/-- C5 (amended) theorem: the per-iteration callbacks contain no
exception handling, so if the plotting observer fails the error
propagates out of the callback, aborting it, in both the 2D variant and
run_mech. -/
theorem C5_observer_error_propagates {n : ℕ} (K : Fin n → Fin n → ℚ)
    (cmin cmax : ℚ) (vag : DesignField n → ℚ × DesignField n)
    (heat : DesignField n → DesignField n)
    (obs : DesignField n → DesignField n → Except Unit Unit)
    (x : DesignField n) (gd : Buffer) (e : Unit)
    (h : obs (simp_parametrization K cmin cmax x) (heat x) = Except.error e) :
    nlopt_obj K cmin cmax vag heat obs x gd = Except.error e
      ∧ (∀ obs₂ : DesignField n → DesignField n → Except Unit Unit,
          obs₂ x (create_parametrization_default K x) = Except.error e
            → nlopt_obj_mech K vag obs₂ x gd = Except.error e) := by
  constructor
  · simp [nlopt_obj, h]
  · intro obs₂ h₂
    simp [nlopt_obj_mech, h₂]

/-- C5 witness: a failing observer aborts the 2D callback at concrete
inputs. -/
theorem C5_observer_error_propagates_witness :
    nlopt_obj (idKernel 1) 1 2 (fun d => (d 0, fun _ => 1)) (fun u => u)
        (fun _ _ => Except.error ()) (fun _ => 0) []
      = Except.error () :=
  (C5_observer_error_propagates (idKernel 1) 1 2 (fun d => (d 0, fun _ => 1))
    (fun u => u) (fun _ _ => Except.error ()) (fun _ => 0) [] () rfl).1

/-- C5 counterexample: at a concrete design field and buffer, an
observer exception makes the 2D per-iteration callback evaluate to an
error: the failure is not recovered with a warning, it aborts the
callback and hence the optimizer's evaluation. -/
theorem C5_counterexample :
    nlopt_obj (idKernel 1) 1 2 (fun d => (d 0, fun _ => 1)) (fun u => u)
        (fun _ _ => Except.error ()) (fun _ => 1 / 2) [0]
      = Except.error () := rfl

/-- C6 (amended) theorem: the 3D variants capture the optimizer result
and render exactly that field, while the 2D variant's observable
outcome is the last plotted field and does not depend on the optimizer
output at all. -/
theorem C6_final_design_capture {n : ℕ}
    (optimize f g : DesignField n → DesignField n)
    (volfrac : ℚ) (lastPlot : DesignField n) :
    (run_mech_result optimize volfrac).values = optimize (x0_field n volfrac)
      ∧ (run_temp_result optimize volfrac).values = optimize (x0_field n volfrac)
      ∧ sturges_result f volfrac lastPlot = sturges_result g volfrac lastPlot :=
  ⟨rfl, rfl, rfl⟩

/-- C6 counterexample: two 2D runs whose optimizers return different
final designs still have identical observable results, so the 2D
variant does not return the optimizer's final design to the caller. -/
theorem C6_counterexample :
    ((fun _ : DesignField 1 => (fun _ : Fin 1 => (0 : ℚ))) (x0_field 1 (2 / 5))) 0
        ≠ ((fun _ : DesignField 1 => (fun _ : Fin 1 => (1 : ℚ))) (x0_field 1 (2 / 5))) 0
      ∧ sturges_result (fun _ => fun _ => 0) (2 / 5) (fun _ : Fin 1 => 1 / 2)
          = sturges_result (fun _ => fun _ => 1) (2 / 5) (fun _ : Fin 1 => 1 / 2) :=
  ⟨by norm_num, rfl⟩

/-- C7 (confirmed): for design fields with entries in [0,1] and a
convex-average filter, every entry of the parametrized field lies in
[prop_min, prop_max]; with the pass-through (scale-zero) kernel the
all-zero field maps to prop_min everywhere and the all-one field to
prop_max everywhere. -/
theorem C7_property_range {n : ℕ} (K : Fin n → Fin n → ℚ) (a b : ℚ)
    (x : DesignField n) (hK : Stochastic K)
    (hx : ∀ i, 0 ≤ x i ∧ x i ≤ 1) (hab : a ≤ b) :
    (∀ i, a ≤ create_parametrization K a b 3 x i
        ∧ create_parametrization K a b 3 x i ≤ b)
      ∧ (∀ i, create_parametrization (idKernel n) a b 3 (fun _ => 0) i = a)
      ∧ (∀ i, create_parametrization (idKernel n) a b 3 (fun _ => 1) i = b) := by
  refine ⟨?_, ?_, ?_⟩
  · intro i
    obtain ⟨h0, h1⟩ := filt_unit_interval K hK x hx i
    have hd : 0 ≤ b - a := sub_nonneg.mpr hab
    have hp0 : 0 ≤ (filt K x i) ^ 3 := pow_nonneg h0 3
    have hp1 : (filt K x i) ^ 3 ≤ 1 := pow_le_one₀ h0 h1
    constructor
    · simp only [create_parametrization]
      nlinarith
    · simp only [create_parametrization]
      nlinarith
  · intro i
    simp [create_parametrization, filt_idKernel]
  · intro i
    simp only [create_parametrization, filt_idKernel]
    ring

/-- C7 witness: at the pass-through kernel, the uniform half-density
single-cell field and the default property range, the parametrized
entry lies between the property bounds. -/
theorem C7_property_range_witness :
    (1 : ℚ) / 10000
        ≤ create_parametrization (idKernel 1) (1 / 10000) 1 3 (fun _ => 1 / 2) 0
      ∧ create_parametrization (idKernel 1) (1 / 10000) 1 3 (fun _ => 1 / 2) 0 ≤ 1 :=
  (C7_property_range (idKernel 1) (1 / 10000) 1 (fun _ => 1 / 2)
    (stochastic_idKernel 1) (fun _ => by norm_num) (by norm_num)).1 0

/-- C8 (confirmed): with an empty gradient buffer every callback
leaves the buffer unchanged and still returns the correct scalar; the
scalar value never depends on the buffer contents. -/
theorem C8_buffer_discipline {n : ℕ} (K : Fin n → Fin n → ℚ)
    (cmin cmax volfrac : ℚ) (vag : DesignField n → ℚ × DesignField n)
    (heat : DesignField n → DesignField n)
    (obs : DesignField n → DesignField n → Except Unit Unit)
    (x : DesignField n) (gd : Buffer) (h : gd.length = 0) :
    (volume_constraint K cmin cmax volfrac x gd).2 = gd
      ∧ (volume_constraint K cmin cmax volfrac x gd).1
          = volume K cmin cmax x - volfrac
      ∧ (volume_constraint_mech volfrac x gd).2 = gd
      ∧ (volume_constraint_mech volfrac x gd).1 = mean x - volfrac
      ∧ (volume_constraint_temp volfrac x gd).2 = gd
      ∧ (volume_constraint_temp volfrac x gd).1 = mean x - volfrac
      ∧ (obs (simp_parametrization K cmin cmax x) (heat x) = Except.ok ()
          → nlopt_obj K cmin cmax vag heat obs x gd
              = Except.ok ((vag (simp_parametrization K cmin cmax x)).1, gd))
      ∧ (∀ gd₂ : Buffer, (volume_constraint K cmin cmax volfrac x gd₂).1
          = (volume_constraint K cmin cmax volfrac x gd).1) := by
  have hlt : ¬ 0 < gd.length := by omega
  refine ⟨?_, rfl, ?_, rfl, ?_, rfl, ?_, fun gd₂ => rfl⟩
  · simp [volume_constraint, hlt]
  · simp [volume_constraint_mech, hlt]
  · simp [volume_constraint_temp, hlt]
  · intro hobs
    simp [nlopt_obj, value_and_grad_objective, hobs, hlt]

/-- C8 witness: the 2D constraint callback with an empty buffer at
concrete inputs returns the buffer unchanged. -/
theorem C8_buffer_discipline_witness :
    (volume_constraint (idKernel 1) 1 2 (2 / 5) (fun _ : Fin 1 => 1 / 2) []).2
      = ([] : Buffer) :=
  (C8_buffer_discipline (idKernel 1) 1 2 (2 / 5) (fun d => (d 0, fun _ => 1))
    (fun u => u) (fun _ _ => Except.ok ()) (fun _ => 1 / 2) [] rfl).1

/-- C9 (amended) theorem: in both 3D variants the residual
mean(x) - volfrac is non-decreasing in mean(x); in the 2D variant the
residual is the mean of the cubed filtered field minus volfrac, which
is not monotone in the mean of x (see the counterexample). -/
theorem C9_residual_monotone_3d {n : ℕ} (volfrac : ℚ) (x y : DesignField n)
    (g₁ g₂ : Buffer) (h : mean x ≤ mean y) :
    (volume_constraint_mech volfrac x g₁).1
        ≤ (volume_constraint_mech volfrac y g₂).1
      ∧ (volume_constraint_temp volfrac x g₁).1
          ≤ (volume_constraint_temp volfrac y g₂).1 :=
  ⟨sub_le_sub_right h volfrac, sub_le_sub_right h volfrac⟩

/-- C9 witness: monotonicity of the run_mech residual at two concrete
uniform fields. -/
theorem C9_residual_monotone_3d_witness :
    (volume_constraint_mech (2 / 5) (fun _ : Fin 1 => 1 / 4) []).1
      ≤ (volume_constraint_mech (2 / 5) (fun _ : Fin 1 => 1 / 2) []).1 :=
  (C9_residual_monotone_3d (2 / 5) (fun _ => 1 / 4) (fun _ => 1 / 2) [] []
    (by norm_num [mean])).1

/-- C9 counterexample: with the pass-through kernel fixed, the 2D
residual is not non-decreasing in the mean: the field (0, 1) has mean
1/2 and residual 1/10, the uniform field 3/5 has larger mean 3/5 but
smaller residual 27/125 - 2/5 < 0. -/
theorem C9_counterexample :
    mean (fun i : Fin 2 => if i = 0 then (0 : ℚ) else 1)
        ≤ mean (fun _ : Fin 2 => (3 : ℚ) / 5)
      ∧ ¬ ((volume_constraint (idKernel 2) 1 1000000 (2 / 5)
              (fun i => if i = 0 then 0 else 1) []).1
            ≤ (volume_constraint (idKernel 2) 1 1000000 (2 / 5)
                (fun _ => 3 / 5) []).1) := by
  constructor
  · norm_num [mean, Fin.sum_univ_two]
  · simp only [volume_constraint, value_and_grad_volume, volume,
      simp_parametrization, mean, filt, idKernel]
    norm_num [Fin.sum_univ_two]

/-- C10 (confirmed): whenever the 3D volume-constraint callbacks are
given a nonempty gradient buffer they write the constant field 1/n,
independent of the design field (and of parametrization, filter scale
and penalty, which they never consult), and 1/n is the exact coordinate
difference quotient of the mean. -/
theorem C10_mean_gradient {n : ℕ} (volfrac : ℚ) (x : DesignField n)
    (gd : Buffer) (h : 0 < gd.length) :
    (volume_constraint_mech volfrac x gd).2
        = List.ofFn (fun _ : Fin n => 1 / (n : ℚ))
      ∧ (volume_constraint_temp volfrac x gd).2
          = List.ofFn (fun _ : Fin n => 1 / (n : ℚ))
      ∧ (∀ y : DesignField n,
          (volume_constraint_mech volfrac y gd).2
            = (volume_constraint_mech volfrac x gd).2)
      ∧ (∀ (i : Fin n) (q : ℚ),
          mean (fun j => x j + if j = i then q else 0)
            = mean x + q * (1 / (n : ℚ))) := by
  refine ⟨?_, ?_, fun y => rfl, ?_⟩
  · simp [volume_constraint_mech, value_and_grad_mean, h]
  · simp [volume_constraint_temp, value_and_grad_mean, h]
  · intro i q
    unfold mean
    rw [Finset.sum_add_distrib, Finset.sum_ite_eq' Finset.univ i fun _ => q]
    rw [if_pos (Finset.mem_univ i), add_div, mul_one_div]

/-- C10 witness: the run_mech constraint callback with a nonempty
buffer writes the constant gradient 1/n at a concrete field. -/
theorem C10_mean_gradient_witness :
    (volume_constraint_mech (2 / 5) (fun _ : Fin 1 => 1 / 2) [0]).2
      = List.ofFn (fun _ : Fin 1 => 1 / ((1 : ℕ) : ℚ)) :=
  (C10_mean_gradient (2 / 5) (fun _ => 1 / 2) [0] (by decide)).1

end Tofea
